import Mathlib

/-!
Verification of the PhononSED Lorentzian fitting script (`fitter_old.py`).

The script reads a spectral-energy-density table (one shared frequency
column, one amplitude column per mode) together with a list of prior
("GULP") peak frequencies, and for each mode selects a fit window around
the prior peak, fits a 4-parameter Lorentzian by a staged optimizer, and
converts the fitted width into a lifetime.

The embedding below models:
  * `pyround`     — Python's `round` (round half to even) on exact rationals;
  * `pySlice*`    — Python slice-index semantics `a[lo:hi]`;
  * `Lorentzian`  — the line-shape `A/((w0-w)^2 + Γ^2) + D`;
  * `costfun`     — the log10 residual cost of `fit_function`;
  * `fit_function`— the staged-optimizer control flow, with the three scipy
                    stages abstracted as oracle arguments;
  * `selectWindow`/`processMode` — one iteration of the mode fitting loop
                    (lines 116–152 of the source), with the scipy call
                    abstracted as an oracle argument `fit`.
Frequency and amplitude data are embedded as exact rationals; the real-valued
cost function is embedded over `ℝ`.
-/

namespace PhononSED

/-- Python's `round` on an exact rational: round half to even.
Models `int(round(x))` in the source (the argument is always integral after
`round`, so the `int` cast is the identity). -/
def pyround (q : ℚ) : ℤ :=
  if Int.fract q < 1/2 then ⌊q⌋
  else if (1 : ℚ)/2 < Int.fract q then ⌊q⌋ + 1
  else if ⌊q⌋ % 2 = 0 then ⌊q⌋ else ⌊q⌋ + 1

/-- Effective lower index of the Python slice `a[lo:hi]` for a length-`n`
sequence. -/
def pySliceLo (i n : ℤ) : ℤ := if i < 0 then max (n + i) 0 else min i n

/-- Effective upper index of the Python slice `a[lo:hi]` for a length-`n`
sequence. -/
def pySliceHi (i n : ℤ) : ℤ := if i < 0 then max (n + i) 0 else min i n

/-- Python slice `l[lo:hi]` on a list. -/
def pySliceList (l : List ℚ) (lo hi : ℤ) : List ℚ :=
  (l.take (pySliceHi hi (l.length : ℤ)).toNat).drop (pySliceLo lo (l.length : ℤ)).toNat

/-- Python slice `f[lo:hi]` where the sequence of conceptual length `n` is
given by the function `f` (used for the shared frequency column). -/
def pySliceFn (f : ℤ → ℚ) (lo hi n : ℤ) : List ℚ :=
  (List.range (pySliceHi hi n - pySliceLo lo n).toNat).map
    (fun k => f (pySliceLo lo n + (k : ℤ)))

/-- The parameter 4-tuple `[A, w_0, Gamma, D]` used by `Lorentzian`,
`fit_function` and the mode fitting loop. -/
structure LorParams (α : Type) where
  A : α
  w0 : α
  Gamma : α
  D : α

/-- The `Lorentzian` function of the source:
`A/((w_0 - w)**2 + Gamma**2) + D`. -/
def Lorentzian {α : Type} [Field α] (w : α) (params : LorParams α) : α :=
  params.A / ((params.w0 - w)^2 + params.Gamma^2) + params.D

/-- `np.log10`. -/
noncomputable def log10 (x : ℝ) : ℝ := Real.log x / Real.log 10

/-- The `costfun` closure inside `fit_function`:
`diff = np.log10(dataY) - np.log10(fit_fn(dataX, params)); np.dot(diff, diff)`. -/
noncomputable def costfun {n : ℕ} (dataX dataY : Fin n → ℝ)
    (fit_fn : ℝ → LorParams ℝ → ℝ) (params : LorParams ℝ) : ℝ :=
  let diff : Fin n → ℝ := fun i => log10 (dataY i) - log10 (fit_fn (dataX i) params)
  Matrix.dotProduct diff diff

/-- The per-parameter bounds list
`[(0, max_height), (w0 - sw, w0 + sw), (.000001, 1000), (0, 0)]`. -/
structure Bounds4 (α : Type) where
  A : α × α
  center : α × α
  width : α × α
  offset : α × α

/-- `fit_function` of the source: three sequential optimizer stages, each
independently toggleable; each stage's result seeds the next.  The three
scipy optimizers are abstracted as the oracle arguments `deOpt`, `tncOpt`
and `slsqpOpt`; as in the source, the differential-evolution stage ignores
the incoming parameters and searches the bound box, while the two local
stages start from the current parameters. -/
noncomputable def fit_function {n : ℕ} {β : Type} (dataX dataY : Fin n → ℝ)
    (fit_fn : ℝ → LorParams ℝ → ℝ) (params : LorParams ℝ) (bounds : β)
    (differential_evolution TNC SLSQP verbose : Bool)
    (deOpt : (LorParams ℝ → ℝ) → β → LorParams ℝ)
    (tncOpt slsqpOpt : (LorParams ℝ → ℝ) → LorParams ℝ → β → LorParams ℝ) :
    LorParams ℝ :=
  let cost : LorParams ℝ → ℝ := costfun dataX dataY fit_fn
  let p1 := if differential_evolution then deOpt cost bounds else params
  let p2 := if TNC then tncOpt cost p1 bounds else p1
  if SLSQP then slsqpOpt cost p2 bounds else p2

/-- `freq_step = freqs[5] - freqs[4]`. -/
def stepOf (freqs : ℤ → ℚ) : ℚ := freqs 5 - freqs 4

/-- `iw = int(round(sw/freq_step))`, the half-width of the fit window in
index units. -/
def iwOf (freqs : ℤ → ℚ) (sw : ℚ) : ℤ := pyround (sw / stepOf freqs)

/-- `idx_gulp_peak = int(round(peak_freqs[m]/freq_step))`, the index of the
prior peak estimate before clamping. -/
def idxPriorOf (freqs : ℤ → ℚ) (priorFreq : ℚ) : ℤ :=
  pyround (priorFreq / stepOf freqs)

/-- Result of the window-placement clamping steps: the clamped center
index, whether the severe out-of-range warning fired, and whether the
near-zero (acoustic) clamp fired. -/
structure WindowSel where
  center : ℤ
  severeWarn : Bool
  nearZeroClamp : Bool

/-- The two sequential clamping steps of the mode fitting loop:
`if idx_gulp_peak > len-1: idx_gulp_peak = len - iw - 1` (severe warning),
then `if idx_gulp_peak - iw < 0: idx_gulp_peak = iw + 1`. -/
def selectWindow (idx iw n : ℤ) : WindowSel :=
  if n - 1 < idx then
    if n - iw - 1 - iw < 0 then ⟨iw + 1, true, true⟩ else ⟨n - iw - 1, true, false⟩
  else
    if idx - iw < 0 then ⟨iw + 1, false, true⟩ else ⟨idx, false, false⟩

/-- Window placement for a mode, as a function of the prior estimate, the
search half-width and the data length only (the amplitude data never enters). -/
def selOf (freqs : ℤ → ℚ) (priorFreq sw : ℚ) (n : ℤ) : WindowSel :=
  selectWindow (idxPriorOf freqs priorFreq) (iwOf freqs sw) n

/-- `max_height = max(mode_data[:,m])` (Python `max` of a nonempty list;
junk value `0` on the empty list, which the script never produces). -/
def maxHeightOf : List ℚ → ℚ
  | [] => 0
  | a :: t => t.foldl max a

/-- First index at which `x` occurs, as Python `list.index` (the script only
calls it on a value present in the list). -/
def indexOfFirst (x : ℚ) : List ℚ → ℕ
  | [] => 0
  | a :: t => if a = x then 0 else indexOfFirst x t + 1

/-- `idx_max = list(mode_data[:,m]).index(max_height)`. -/
def idxMaxOf (l : List ℚ) : ℕ := indexOfFirst (maxHeightOf l) l

/-- `freq_max = idx_max*freq_step + freq_step*0.5`. -/
def freqMaxOf (l : List ℚ) (step : ℚ) : ℚ :=
  (idxMaxOf l : ℚ) * step + step * (1/2)

/-- `lifetimes[m] = (1/(params[2]*2.99*1e10))/(1e-9)`. -/
def lifetimeOf (Gamma : ℚ) : ℚ := 1 / (Gamma * (299/100) * 10^10) / (1/10^9)

/-- Everything one iteration of the mode fitting loop computes for a mode:
the empirical maximum and its warning, the clamped window, the slices, the
initial guess and bounds handed to the optimizer, the fitted parameters and
the derived lifetime. -/
structure ModeOutcome where
  max_height : ℚ
  idx_max : ℕ
  freq_max : ℚ
  mismatchWarn : Bool
  severeWarn : Bool
  nearZeroClamp : Bool
  center : ℤ
  windowLo : ℤ
  windowHi : ℤ
  freqs_2_fit : List ℚ
  Y_2_fit : List ℚ
  w0 : ℚ
  initParams : LorParams ℚ
  bounds : Bounds4 ℚ
  fitted : LorParams ℚ
  lifetime : ℚ

/-- One iteration of the mode fitting loop (source lines 116–152).  `freqs`
is the shared frequency column, `modeCol` the mode's amplitude column,
`priorFreq` the prior ("GULP") peak frequency, `sw` the search half-width.
The call `fit_function(freqs_2_fit, Y_2_fit, Lorentzian, params, bounds)`
is abstracted by the oracle `fit` (scipy optimizers are external). -/
def processMode (freqs : ℤ → ℚ) (modeCol : List ℚ) (priorFreq sw : ℚ)
    (fit : List ℚ → List ℚ → LorParams ℚ → Bounds4 ℚ → LorParams ℚ) :
    ModeOutcome :=
  let n : ℤ := (modeCol.length : ℤ)
  let step : ℚ := stepOf freqs
  let iw : ℤ := iwOf freqs sw
  let s : WindowSel := selOf freqs priorFreq sw n
  let c : ℤ := s.center
  let X2 : List ℚ := pySliceFn freqs (c - iw) (c + iw) n
  let Y2 : List ℚ := pySliceList modeCol (c - iw) (c + iw)
  let w0 : ℚ := freqs c
  let params0 : LorParams ℚ := ⟨maxHeightOf modeCol, w0, 10, 0⟩
  let w0s : ℚ := if w0 < sw then sw + 1 else w0
  let bnds : Bounds4 ℚ :=
    ⟨(0, maxHeightOf modeCol), (w0s - sw, w0s + sw), (1/1000000, 1000), (0, 0)⟩
  let p : LorParams ℚ := fit X2 Y2 params0 bnds
  { max_height := maxHeightOf modeCol
    idx_max := idxMaxOf modeCol
    freq_max := freqMaxOf modeCol step
    mismatchWarn := decide (sw < |freqMaxOf modeCol step - priorFreq|)
    severeWarn := s.severeWarn
    nearZeroClamp := s.nearZeroClamp
    center := c
    windowLo := c - iw
    windowHi := c + iw
    freqs_2_fit := X2
    Y_2_fit := Y2
    w0 := w0
    initParams := params0
    bounds := bnds
    fitted := p
    lifetime := lifetimeOf p.Gamma }

/-- A trivial optimizer oracle that returns the initial guess (used for
concrete instances; the claims below hold for every oracle). -/
def fit0 : List ℚ → List ℚ → LorParams ℚ → Bounds4 ℚ → LorParams ℚ :=
  fun _ _ p _ => p

/-- A frequency column with unit step: `freqs[i] = i`. -/
def freqsId : ℤ → ℚ := fun i => (i : ℚ)

/-- A frequency column with step 3: `freqs[i] = 3 i`. -/
def freqs3 : ℤ → ℚ := fun i => 3 * (i : ℚ)

/-- Amplitude column of length 8 whose maximum 5 sits at index 3. -/
def colC1 : List ℚ := [1, 1, 1, 5, 1, 1, 1, 1]

/-- Amplitude column of length 10, constant 1. -/
def ones10 : List ℚ := [1, 1, 1, 1, 1, 1, 1, 1, 1, 1]

/-- Amplitude column of length 10 whose maximum 9 sits at index 0. -/
def colMax0 : List ℚ := [9, 1, 1, 1, 1, 1, 1, 2, 1, 1]

/-- Amplitude column of length 5, constant 1. -/
def col5 : List ℚ := [1, 1, 1, 1, 1]

end PhononSED

namespace PhononSED

/-! ## Helper lemmas -/

/-- Characterization of the clamps when the prior index is in bounds. -/
theorem selectWindow_of_inbounds (idx iw n : ℤ) (hlo : iw ≤ idx) (hhi : idx ≤ n - 1) :
    selectWindow idx iw n = ⟨idx, false, false⟩ := by
  unfold selectWindow
  rw [if_neg (by omega), if_neg (by omega)]

/-- Characterization of the clamps when the prior index overflows the data
and the data is longer than the full window. -/
theorem selectWindow_of_high (idx iw n : ℤ) (h0 : 0 ≤ iw) (hn : 2 * iw + 1 < n)
    (hidx : n ≤ idx) :
    selectWindow idx iw n = ⟨n - iw - 1, true, false⟩ := by
  unfold selectWindow
  rw [if_pos (by omega), if_neg (by omega)]

/-- After both clamps the center lies in `[iw, n-1]` whenever the data is
longer than the full window. -/
theorem selectWindow_center_range (idx iw n : ℤ) (h0 : 0 ≤ iw) (hn : 2 * iw + 1 < n) :
    iw ≤ (selectWindow idx iw n).center ∧ (selectWindow idx iw n).center ≤ n - 1 := by
  unfold selectWindow
  split_ifs <;> constructor <;> simp <;> omega

/-- Length of a Python slice of a list. -/
theorem pySliceList_length (l : List ℚ) (lo hi : ℤ) :
    (pySliceList l lo hi).length
      = (pySliceHi hi (l.length : ℤ) - pySliceLo lo (l.length : ℤ)).toNat := by
  unfold pySliceList pySliceLo pySliceHi
  simp only [List.length_drop, List.length_take]
  split_ifs <;> omega

/-! ## Claim theorems -/

/-- C9: the Lorentzian is symmetric about its center parameter: for all
parameter tuples `(A, w0, Γ, D)` and all real `δ`,
`Lorentzian (w0 + δ) = Lorentzian (w0 - δ)`. -/
theorem lorentzian_symmetric_about_center (A w0 Gamma D δ : ℝ) :
    Lorentzian (w0 + δ) ⟨A, w0, Gamma, D⟩ = Lorentzian (w0 - δ) ⟨A, w0, Gamma, D⟩ := by
  unfold Lorentzian
  ring

/-- C6: for every windowed data pair `(X, Y)` and every parameter tuple,
the optimizer's cost function equals the sum over all window points of the
squared difference between `log10(Y)` and `log10(Lorentzian(X, params))`. -/
theorem costfun_is_log10_squared_residuals {n : ℕ} (dataX dataY : Fin n → ℝ)
    (params : LorParams ℝ) :
    costfun dataX dataY Lorentzian params
      = Finset.univ.sum
          (fun i => (log10 (dataY i) - log10 (Lorentzian (dataX i) params))^2) := by
  unfold costfun Matrix.dotProduct
  exact Finset.sum_congr rfl (fun i _ => (pow_two _).symm)

/-- C7: when all three optimizer stages are disabled
(`differential_evolution`, `TNC` and `SLSQP` flags all false),
`fit_function` returns the initial parameter list unchanged, for every
input data, bounds, and optimizer oracles. -/
theorem fit_function_all_stages_disabled_id {n : ℕ} {β : Type}
    (dataX dataY : Fin n → ℝ) (fit_fn : ℝ → LorParams ℝ → ℝ)
    (params : LorParams ℝ) (bounds : β) (verbose : Bool)
    (deOpt : (LorParams ℝ → ℝ) → β → LorParams ℝ)
    (tncOpt slsqpOpt : (LorParams ℝ → ℝ) → LorParams ℝ → β → LorParams ℝ) :
    fit_function dataX dataY fit_fn params bounds false false false verbose
      deOpt tncOpt slsqpOpt = params := rfl

/-- C8: for every mode, the derived lifetime stored in the mode's result
equals `1/(Γ·2.99e10)/1e-9` picoseconds, where `Γ` is the fitted width
parameter; in particular for `Γ = 10` the lifetime equals
`1/(10·2.99e10)/1e-9`. -/
theorem lifetime_conversion_formula (freqs : ℤ → ℚ) (col : List ℚ) (pf sw : ℚ)
    (fit : List ℚ → List ℚ → LorParams ℚ → Bounds4 ℚ → LorParams ℚ) :
    (processMode freqs col pf sw fit).lifetime
        = 1 / ((processMode freqs col pf sw fit).fitted.Gamma * ((299 : ℚ)/100 * 10^10))
            / (1/10^9)
      ∧ lifetimeOf 10 = 1 / ((10 : ℚ) * ((299 : ℚ)/100 * 10^10)) / (1/10^9) := by
  constructor
  · have h : (processMode freqs col pf sw fit).lifetime
        = lifetimeOf (processMode freqs col pf sw fit).fitted.Gamma := rfl
    rw [h]
    unfold lifetimeOf
    rw [mul_assoc]
  · unfold lifetimeOf
    rw [mul_assoc]

/-- C5: for every mode, the non-fatal mismatch warning is emitted if and
only if the absolute difference between the frequency of the empirical
maximum of the mode's amplitude column and the prior peak estimate exceeds
the search half-width `sw`; and the window center used for fitting is
computed by `selOf` from the prior estimate, the half-width and the data
length only — the amplitude data (hence the empirical maximum) never
enters the center computation. -/
theorem mismatch_warning_iff_center_from_prior (freqs : ℤ → ℚ) (col : List ℚ)
    (pf sw : ℚ) (fit : List ℚ → List ℚ → LorParams ℚ → Bounds4 ℚ → LorParams ℚ) :
    ((processMode freqs col pf sw fit).mismatchWarn = true
        ↔ |freqMaxOf col (stepOf freqs) - pf| > sw)
      ∧ (processMode freqs col pf sw fit).center
          = (selOf freqs pf sw (col.length : ℤ)).center := by
  constructor
  · simp [processMode]
  · rfl

/-- C1 (amended): for every mode whose (possibly clamped) window-center
frequency `w0 = freqs[idx_gulp_peak]` is below the search half-width `sw`,
the guard shifts the center of the optimizer bounds to `sw + 1` — the
bounds' center interval becomes `(sw + 1 - sw, sw + 1 + sw)` — while the
initial parameter guess keeps the original `w0`; its amplitude, width and
offset components are `[max_height, 10, 0]`. -/
theorem acoustic_guard_shifts_bounds_center (freqs : ℤ → ℚ) (col : List ℚ)
    (pf sw : ℚ) (fit : List ℚ → List ℚ → LorParams ℚ → Bounds4 ℚ → LorParams ℚ)
    (h : (processMode freqs col pf sw fit).w0 < sw) :
    (processMode freqs col pf sw fit).initParams
        = ⟨maxHeightOf col, (processMode freqs col pf sw fit).w0, 10, 0⟩ ∧
    (processMode freqs col pf sw fit).bounds
        = ⟨(0, maxHeightOf col), (sw + 1 - sw, sw + 1 + sw),
           (1/1000000, 1000), (0, 0)⟩ := by
  have hc : freqs (selOf freqs pf sw (col.length : ℤ)).center < sw := h
  have hb : (processMode freqs col pf sw fit).bounds
      = ⟨(0, maxHeightOf col),
         ((if freqs (selOf freqs pf sw (col.length : ℤ)).center < sw then sw + 1
           else freqs (selOf freqs pf sw (col.length : ℤ)).center) - sw,
          (if freqs (selOf freqs pf sw (col.length : ℤ)).center < sw then sw + 1
           else freqs (selOf freqs pf sw (col.length : ℤ)).center) + sw),
         (1/1000000, 1000), (0, 0)⟩ := rfl
  refine ⟨rfl, ?_⟩
  rw [hb, if_pos hc]

/-- C2 (amended): for every prior peak estimate and every spectrum of
length `N > 2·iw + 1`, after the clamping steps the window start
`center - iw` lies in `[0, N-1]` and the center lies in `[0, N-1]`; the
nominal end `center + iw` is bounded by `N - 1 + iw` — it can exceed `N-1`
(by at most `iw`, when the prior index falls within one half-width of the
end of the data), where the Python slice truncates the actual window to
`[center - iw, N)`. -/
theorem fit_window_clamped_bounds (freqs : ℤ → ℚ) (col : List ℚ) (pf sw : ℚ)
    (fit : List ℚ → List ℚ → LorParams ℚ → Bounds4 ℚ → LorParams ℚ)
    (h0 : 0 ≤ iwOf freqs sw)
    (h1 : 2 * iwOf freqs sw + 1 < (col.length : ℤ)) :
    0 ≤ (processMode freqs col pf sw fit).windowLo ∧
    (processMode freqs col pf sw fit).windowLo ≤ (col.length : ℤ) - 1 ∧
    0 ≤ (processMode freqs col pf sw fit).center ∧
    (processMode freqs col pf sw fit).center ≤ (col.length : ℤ) - 1 ∧
    (processMode freqs col pf sw fit).windowHi
        ≤ (col.length : ℤ) - 1 + iwOf freqs sw := by
  have hc := selectWindow_center_range (idxPriorOf freqs pf) (iwOf freqs sw)
      (col.length : ℤ) h0 h1
  have e1 : (processMode freqs col pf sw fit).windowLo
      = (selectWindow (idxPriorOf freqs pf) (iwOf freqs sw) (col.length : ℤ)).center
        - iwOf freqs sw := rfl
  have e2 : (processMode freqs col pf sw fit).center
      = (selectWindow (idxPriorOf freqs pf) (iwOf freqs sw) (col.length : ℤ)).center := rfl
  have e3 : (processMode freqs col pf sw fit).windowHi
      = (selectWindow (idxPriorOf freqs pf) (iwOf freqs sw) (col.length : ℤ)).center
        + iwOf freqs sw := rfl
  rw [e1, e2, e3]
  omega

/-- C3 (amended): for every prior estimate whose index satisfies
`iw < index < length - iw` (with `0 ≤ iw`), the window-placement step
returns exactly the window `[index - iw, index + iw)` — the windowed
amplitude slice has exactly `2·iw` points — and records no severe warning
and applies no near-zero clamp.  (The prior-vs-empirical-maximum mismatch
warning is independent of the index condition and may still be recorded;
see the counterexample.) -/
theorem mid_spectrum_window_exact (freqs : ℤ → ℚ) (col : List ℚ) (pf sw : ℚ)
    (fit : List ℚ → List ℚ → LorParams ℚ → Bounds4 ℚ → LorParams ℚ)
    (h0 : 0 ≤ iwOf freqs sw)
    (h1 : iwOf freqs sw < idxPriorOf freqs pf)
    (h2 : idxPriorOf freqs pf < (col.length : ℤ) - iwOf freqs sw) :
    (processMode freqs col pf sw fit).windowLo
        = idxPriorOf freqs pf - iwOf freqs sw ∧
    (processMode freqs col pf sw fit).windowHi
        = idxPriorOf freqs pf + iwOf freqs sw ∧
    (processMode freqs col pf sw fit).severeWarn = false ∧
    (processMode freqs col pf sw fit).nearZeroClamp = false ∧
    (processMode freqs col pf sw fit).Y_2_fit.length
        = (2 * iwOf freqs sw).toNat := by
  have hs : selectWindow (idxPriorOf freqs pf) (iwOf freqs sw) (col.length : ℤ)
      = ⟨idxPriorOf freqs pf, false, false⟩ :=
    selectWindow_of_inbounds _ _ _ (by omega) (by omega)
  have e1 : (processMode freqs col pf sw fit).windowLo
      = (selectWindow (idxPriorOf freqs pf) (iwOf freqs sw) (col.length : ℤ)).center
        - iwOf freqs sw := rfl
  have e2 : (processMode freqs col pf sw fit).windowHi
      = (selectWindow (idxPriorOf freqs pf) (iwOf freqs sw) (col.length : ℤ)).center
        + iwOf freqs sw := rfl
  have e3 : (processMode freqs col pf sw fit).severeWarn
      = (selectWindow (idxPriorOf freqs pf) (iwOf freqs sw) (col.length : ℤ)).severeWarn :=
    rfl
  have e4 : (processMode freqs col pf sw fit).nearZeroClamp
      = (selectWindow (idxPriorOf freqs pf) (iwOf freqs sw) (col.length : ℤ)).nearZeroClamp :=
    rfl
  have e5 : (processMode freqs col pf sw fit).Y_2_fit
      = pySliceList col
          ((selectWindow (idxPriorOf freqs pf) (iwOf freqs sw) (col.length : ℤ)).center
            - iwOf freqs sw)
          ((selectWindow (idxPriorOf freqs pf) (iwOf freqs sw) (col.length : ℤ)).center
            + iwOf freqs sw) := rfl
  rw [e1, e2, e3, e4, e5, hs]
  refine ⟨rfl, rfl, rfl, rfl, ?_⟩
  rw [pySliceList_length]
  unfold pySliceLo pySliceHi
  dsimp only
  split_ifs <;> omega

/-- C4 (amended): for every prior estimate whose index is at least the
spectrum length, provided the spectrum is longer than the full window
(`N > 2·iw + 1`, without which the near-zero clamp overrides the boundary
clamp — see the counterexample), the window center is clamped to
`N - iw - 1`, the returned window is `[N - 2·iw - 1, N - 1)` and ends
within `[0, N)`, and the severe warning (and no other clamp) is recorded
for that mode; a result record is still produced, so fitting proceeds
rather than aborting. -/
theorem prior_out_of_range_clamp (freqs : ℤ → ℚ) (col : List ℚ) (pf sw : ℚ)
    (fit : List ℚ → List ℚ → LorParams ℚ → Bounds4 ℚ → LorParams ℚ)
    (h0 : 0 ≤ iwOf freqs sw)
    (h1 : 2 * iwOf freqs sw + 1 < (col.length : ℤ))
    (h2 : (col.length : ℤ) ≤ idxPriorOf freqs pf) :
    (processMode freqs col pf sw fit).center
        = (col.length : ℤ) - iwOf freqs sw - 1 ∧
    (processMode freqs col pf sw fit).severeWarn = true ∧
    (processMode freqs col pf sw fit).nearZeroClamp = false ∧
    (processMode freqs col pf sw fit).windowHi = (col.length : ℤ) - 1 ∧
    0 ≤ (processMode freqs col pf sw fit).windowLo := by
  have hs : selectWindow (idxPriorOf freqs pf) (iwOf freqs sw) (col.length : ℤ)
      = ⟨(col.length : ℤ) - iwOf freqs sw - 1, true, false⟩ :=
    selectWindow_of_high _ _ _ h0 h1 h2
  have e1 : (processMode freqs col pf sw fit).center
      = (selectWindow (idxPriorOf freqs pf) (iwOf freqs sw) (col.length : ℤ)).center := rfl
  have e2 : (processMode freqs col pf sw fit).severeWarn
      = (selectWindow (idxPriorOf freqs pf) (iwOf freqs sw) (col.length : ℤ)).severeWarn :=
    rfl
  have e3 : (processMode freqs col pf sw fit).nearZeroClamp
      = (selectWindow (idxPriorOf freqs pf) (iwOf freqs sw) (col.length : ℤ)).nearZeroClamp :=
    rfl
  have e4 : (processMode freqs col pf sw fit).windowHi
      = (selectWindow (idxPriorOf freqs pf) (iwOf freqs sw) (col.length : ℤ)).center
        + iwOf freqs sw := rfl
  have e5 : (processMode freqs col pf sw fit).windowLo
      = (selectWindow (idxPriorOf freqs pf) (iwOf freqs sw) (col.length : ℤ)).center
        - iwOf freqs sw := rfl
  rw [e1, e2, e3, e4, e5, hs]
  refine ⟨rfl, rfl, rfl, by dsimp only; omega, by dsimp only; omega⟩

/-- C10 (amended): for every prior estimate whose index `idx` satisfies
`N - iw ≤ idx ≤ N - 1` (with `0 ≤ iw` and `2·iw ≤ N`, without which the
near-zero clamp can fire), no clamping is applied and no severe warning is
recorded (the mismatch warning may still fire — see the counterexample);
the amplitude slice is truncated by the Python slice to `[idx - iw, N)`
and contains `N - idx + iw ≤ 2·iw` points — strictly fewer than `2·iw`
exactly when `idx > N - iw`, while at `idx = N - iw` it contains exactly
`2·iw` points. -/
theorem near_end_window_truncation (freqs : ℤ → ℚ) (col : List ℚ) (pf sw : ℚ)
    (fit : List ℚ → List ℚ → LorParams ℚ → Bounds4 ℚ → LorParams ℚ)
    (h0 : 0 ≤ iwOf freqs sw)
    (hn : 2 * iwOf freqs sw ≤ (col.length : ℤ))
    (h1 : (col.length : ℤ) - iwOf freqs sw ≤ idxPriorOf freqs pf)
    (h2 : idxPriorOf freqs pf ≤ (col.length : ℤ) - 1) :
    (processMode freqs col pf sw fit).center = idxPriorOf freqs pf ∧
    (processMode freqs col pf sw fit).severeWarn = false ∧
    (processMode freqs col pf sw fit).nearZeroClamp = false ∧
    (processMode freqs col pf sw fit).Y_2_fit.length
        = ((col.length : ℤ) + iwOf freqs sw - idxPriorOf freqs pf).toNat ∧
    (col.length : ℤ) + iwOf freqs sw - idxPriorOf freqs pf ≤ 2 * iwOf freqs sw ∧
    ((col.length : ℤ) - iwOf freqs sw < idxPriorOf freqs pf →
      (col.length : ℤ) + iwOf freqs sw - idxPriorOf freqs pf < 2 * iwOf freqs sw) := by
  have hs : selectWindow (idxPriorOf freqs pf) (iwOf freqs sw) (col.length : ℤ)
      = ⟨idxPriorOf freqs pf, false, false⟩ :=
    selectWindow_of_inbounds _ _ _ (by omega) (by omega)
  have e1 : (processMode freqs col pf sw fit).center
      = (selectWindow (idxPriorOf freqs pf) (iwOf freqs sw) (col.length : ℤ)).center := rfl
  have e2 : (processMode freqs col pf sw fit).severeWarn
      = (selectWindow (idxPriorOf freqs pf) (iwOf freqs sw) (col.length : ℤ)).severeWarn :=
    rfl
  have e3 : (processMode freqs col pf sw fit).nearZeroClamp
      = (selectWindow (idxPriorOf freqs pf) (iwOf freqs sw) (col.length : ℤ)).nearZeroClamp :=
    rfl
  have e4 : (processMode freqs col pf sw fit).Y_2_fit
      = pySliceList col
          ((selectWindow (idxPriorOf freqs pf) (iwOf freqs sw) (col.length : ℤ)).center
            - iwOf freqs sw)
          ((selectWindow (idxPriorOf freqs pf) (iwOf freqs sw) (col.length : ℤ)).center
            + iwOf freqs sw) := rfl
  rw [e1, e2, e3, e4, hs]
  refine ⟨rfl, rfl, rfl, ?_, by omega, by omega⟩
  rw [pySliceList_length]
  unfold pySliceLo pySliceHi
  dsimp only
  split_ifs <;> omega

/-! ## Concrete counterexamples and witnesses -/

/-- C1, counterexample: with `freqs[i] = 3·i` (step 3), prior peak 9 and
search half-width `sw = 10`, the guard condition holds (`w0 = 9 < 10`) but
the initial guess handed to the optimizer keeps center `9`: it is not
`sw + 1 = 11`.  In the source, `params = [max_height, w0, 10, 0]` is built
before the `if w0 < sw: w0 = sw + 1` guard, so the shift only reaches the
bounds. -/
theorem acoustic_guard_initial_guess_cex :
    (processMode freqs3 colC1 9 10 fit0).w0 < 10 ∧
    (processMode freqs3 colC1 9 10 fit0).initParams.w0 = 9 ∧
    (processMode freqs3 colC1 9 10 fit0).initParams.w0 ≠ 10 + 1 := by
  refine ⟨?_, ?_, ?_⟩ <;>
    norm_num [processMode, selOf, selectWindow, iwOf, idxPriorOf, stepOf, freqs3,
      pyround, Int.fract, colC1]

/-- C1, witness for the amended theorem at the same concrete input. -/
theorem acoustic_guard_shifts_bounds_center_witness :
    (processMode freqs3 colC1 9 10 fit0).initParams
        = ⟨maxHeightOf colC1, (processMode freqs3 colC1 9 10 fit0).w0, 10, 0⟩ ∧
    (processMode freqs3 colC1 9 10 fit0).bounds
        = ⟨(0, maxHeightOf colC1), ((10 : ℚ) + 1 - 10, (10 : ℚ) + 1 + 10),
           (1/1000000, 1000), (0, 0)⟩ :=
  acoustic_guard_shifts_bounds_center freqs3 colC1 9 10 fit0
    (by norm_num [processMode, selOf, selectWindow, iwOf, idxPriorOf, stepOf,
      freqs3, pyround, Int.fract, colC1])

/-- C2, counterexample: with unit step, `N = 10`, `sw = 3` (so `iw = 3`,
`N > 2·iw + 1`) and prior peak 9 (index 9, in bounds, no clamping), the
produced range is `[6, 12)`, whose last index `11` exceeds `N - 1 = 9`: the
fit-window index range does not lie within `[0, N-1]`. -/
theorem fit_window_exceeds_top_cex :
    2 * iwOf freqsId 3 + 1 < ((ones10.length : ℕ) : ℤ) ∧
    (processMode freqsId ones10 9 3 fit0).windowLo
        < (processMode freqsId ones10 9 3 fit0).windowHi ∧
    ((ones10.length : ℕ) : ℤ) - 1 < (processMode freqsId ones10 9 3 fit0).windowHi - 1 := by
  refine ⟨?_, ?_, ?_⟩ <;>
    norm_num [processMode, selOf, selectWindow, iwOf, idxPriorOf, stepOf, freqsId,
      pyround, Int.fract, ones10]

/-- C2, witness for the amended theorem: unit step, `N = 10`, `sw = 3`,
prior peak 5. -/
theorem fit_window_clamped_bounds_witness :
    0 ≤ (processMode freqsId ones10 5 3 fit0).windowLo ∧
    (processMode freqsId ones10 5 3 fit0).windowLo ≤ (ones10.length : ℤ) - 1 ∧
    0 ≤ (processMode freqsId ones10 5 3 fit0).center ∧
    (processMode freqsId ones10 5 3 fit0).center ≤ (ones10.length : ℤ) - 1 ∧
    (processMode freqsId ones10 5 3 fit0).windowHi
        ≤ (ones10.length : ℤ) - 1 + iwOf freqsId 3 :=
  fit_window_clamped_bounds freqsId ones10 5 3 fit0
    (by norm_num [iwOf, stepOf, freqsId, pyround, Int.fract])
    (by norm_num [iwOf, stepOf, freqsId, pyround, Int.fract, ones10])

/-- C3, counterexample: with unit step, `N = 10`, `sw = 2` (`iw = 2`) and
prior peak 5, the prior index 5 satisfies `iw < 5 < N - iw`, yet a warning
is recorded: the amplitude column has its maximum at index 0, so the
empirical maximum's frequency `0.5` deviates from the prior estimate `5`
by more than `sw` and the mismatch warning fires.  "Records no warnings"
is therefore false as stated. -/
theorem mid_spectrum_mismatch_warning_cex :
    iwOf freqsId 2 < idxPriorOf freqsId 5 ∧
    idxPriorOf freqsId 5 < ((colMax0.length : ℕ) : ℤ) - iwOf freqsId 2 ∧
    (processMode freqsId colMax0 5 2 fit0).mismatchWarn = true := by
    refine ⟨?_, ?_, ?_⟩ <;>
      norm_num [processMode, iwOf, idxPriorOf, stepOf, freqsId, pyround, Int.fract,
        colMax0, freqMaxOf, idxMaxOf, indexOfFirst, maxHeightOf, max_def,
        decide_eq_true_eq, abs_of_pos]

/-- C3, witness for the amended theorem: unit step, `N = 10`, `sw = 2`,
prior peak 5 on the constant column (no mismatch). -/
theorem mid_spectrum_window_exact_witness :
    (processMode freqsId ones10 5 2 fit0).windowLo
        = idxPriorOf freqsId 5 - iwOf freqsId 2 ∧
    (processMode freqsId ones10 5 2 fit0).windowHi
        = idxPriorOf freqsId 5 + iwOf freqsId 2 ∧
    (processMode freqsId ones10 5 2 fit0).severeWarn = false ∧
    (processMode freqsId ones10 5 2 fit0).nearZeroClamp = false ∧
    (processMode freqsId ones10 5 2 fit0).Y_2_fit.length
        = (2 * iwOf freqsId 2).toNat :=
  mid_spectrum_window_exact freqsId ones10 5 2 fit0
    (by norm_num [iwOf, stepOf, freqsId, pyround, Int.fract])
    (by norm_num [iwOf, idxPriorOf, stepOf, freqsId, pyround, Int.fract])
    (by norm_num [iwOf, idxPriorOf, stepOf, freqsId, pyround, Int.fract, ones10])

/-- C4, counterexample: with unit step, `N = 5` and `sw = 3` (`iw = 3`), the
prior peak 10 has index `10 ≥ N`; the boundary clamp sets the center to
`N - iw - 1 = 1`, but the subsequent near-zero clamp overrides it to
`iw + 1 = 4`, so the final center is not `N - iw - 1` and the returned
window `[1, 7)` does not end within `[0, 5)`. -/
theorem prior_out_of_range_small_spectrum_cex :
    ((col5.length : ℕ) : ℤ) ≤ idxPriorOf freqsId 10 ∧
    (processMode freqsId col5 10 3 fit0).center = 4 ∧
    (processMode freqsId col5 10 3 fit0).center
        ≠ ((col5.length : ℕ) : ℤ) - iwOf freqsId 3 - 1 ∧
    (processMode freqsId col5 10 3 fit0).windowHi = 7 ∧
    ¬ (processMode freqsId col5 10 3 fit0).windowHi ≤ ((col5.length : ℕ) : ℤ) := by
  refine ⟨?_, ?_, ?_, ?_, ?_⟩ <;>
    norm_num [processMode, selOf, selectWindow, iwOf, idxPriorOf, stepOf, freqsId,
      pyround, Int.fract, col5]

/-- C4, witness for the amended theorem: unit step, `N = 10`, `sw = 3`,
prior peak 15 (index 15 ≥ 10). -/
theorem prior_out_of_range_clamp_witness :
    (processMode freqsId ones10 15 3 fit0).center
        = (ones10.length : ℤ) - iwOf freqsId 3 - 1 ∧
    (processMode freqsId ones10 15 3 fit0).severeWarn = true ∧
    (processMode freqsId ones10 15 3 fit0).nearZeroClamp = false ∧
    (processMode freqsId ones10 15 3 fit0).windowHi = (ones10.length : ℤ) - 1 ∧
    0 ≤ (processMode freqsId ones10 15 3 fit0).windowLo :=
  prior_out_of_range_clamp freqsId ones10 15 3 fit0
    (by norm_num [iwOf, stepOf, freqsId, pyround, Int.fract])
    (by norm_num [iwOf, stepOf, freqsId, pyround, Int.fract, ones10])
    (by norm_num [iwOf, idxPriorOf, stepOf, freqsId, pyround, Int.fract, ones10])

/-- C10, counterexample: with unit step, `N = 10`, `sw = 3` (`iw = 3`) and
prior peak 7, the index `7 = N - iw` lies in the claimed range
`[N - iw, N - 1]`, but the amplitude slice `[4, 10)` contains exactly
`2·iw = 6` points — not fewer — and a (mismatch) warning is recorded, the
column's maximum being at index 0. -/
theorem near_end_window_boundary_cex :
    ((colMax0.length : ℕ) : ℤ) - iwOf freqsId 3 ≤ idxPriorOf freqsId 7 ∧
    idxPriorOf freqsId 7 ≤ ((colMax0.length : ℕ) : ℤ) - 1 ∧
    (processMode freqsId colMax0 7 3 fit0).Y_2_fit.length = 6 ∧
    2 * iwOf freqsId 3 = 6 ∧
    ¬ ((processMode freqsId colMax0 7 3 fit0).Y_2_fit.length < 6) ∧
    (processMode freqsId colMax0 7 3 fit0).mismatchWarn = true := by
  refine ⟨?_, ?_, ?_, ?_, ?_, ?_⟩
  · norm_num [iwOf, idxPriorOf, stepOf, freqsId, pyround, Int.fract, colMax0]
  · norm_num [idxPriorOf, stepOf, freqsId, pyround, Int.fract, colMax0]
  · norm_num [processMode, selOf, selectWindow, iwOf, idxPriorOf, stepOf, freqsId,
      pyround, Int.fract, colMax0, pySliceList, pySliceLo, pySliceHi]
    omega
  · norm_num [iwOf, stepOf, freqsId, pyround, Int.fract]
  · norm_num [processMode, selOf, selectWindow, iwOf, idxPriorOf, stepOf, freqsId,
      pyround, Int.fract, colMax0, pySliceList, pySliceLo, pySliceHi]
    omega
  · norm_num [processMode, iwOf, idxPriorOf, stepOf, freqsId, pyround, Int.fract,
      colMax0, freqMaxOf, idxMaxOf, indexOfFirst, maxHeightOf, max_def,
      decide_eq_true_eq, abs_of_pos]

/-- C10, witness for the amended theorem: unit step, `N = 10`, `sw = 3`,
prior peak 8 (strictly inside the top half-width). -/
theorem near_end_window_truncation_witness :
    (processMode freqsId ones10 8 3 fit0).center = idxPriorOf freqsId 8 ∧
    (processMode freqsId ones10 8 3 fit0).severeWarn = false ∧
    (processMode freqsId ones10 8 3 fit0).nearZeroClamp = false ∧
    (processMode freqsId ones10 8 3 fit0).Y_2_fit.length
        = ((ones10.length : ℤ) + iwOf freqsId 3 - idxPriorOf freqsId 8).toNat ∧
    (ones10.length : ℤ) + iwOf freqsId 3 - idxPriorOf freqsId 8
        ≤ 2 * iwOf freqsId 3 ∧
    ((ones10.length : ℤ) - iwOf freqsId 3 < idxPriorOf freqsId 8 →
      (ones10.length : ℤ) + iwOf freqsId 3 - idxPriorOf freqsId 8
        < 2 * iwOf freqsId 3) :=
  near_end_window_truncation freqsId ones10 8 3 fit0
    (by norm_num [iwOf, stepOf, freqsId, pyround, Int.fract])
    (by norm_num [iwOf, stepOf, freqsId, pyround, Int.fract, ones10])
    (by norm_num [iwOf, idxPriorOf, stepOf, freqsId, pyround, Int.fract, ones10])
    (by norm_num [iwOf, idxPriorOf, stepOf, freqsId, pyround, Int.fract, ones10])

end PhononSED
